import Mathlib

/-!
Shallow embedding of the `inspect` subcommand of onnxcli
(`src/onnxcli/inspect.py`) and proofs about its selector validation,
collection lookup and rendering behaviour.

Printing to stdout is modelled as producing a `List String` of output
lines; a Python exception is modelled as `Except.error` carrying the
exception class and message, so each printing routine has type
`... → Except PyError (List String)`.
-/

namespace Onnxcli

/-- Python exceptions raised by the code: `TypeError` (wrong call arity),
`ValueError` (explicit `raise ValueError(...)`), `IndexError`
(out-of-range subscript on a sequence). -/
inductive PyError where
  | typeError (msg : String)
  | valueError (msg : String)
  | indexError (msg : String)
deriving DecidableEq

/-- A ValueInfo proto: a named, typed tensor slot without data.
`elemType` is the element dtype enum (`t.type.tensor_type.elem_type`),
`shapeDims` the dims of `t.type.tensor_type.shape` (a concrete integer
or `none` for a symbolic/unknown dimension). -/
structure ValueInfo where
  name : String
  elemType : Nat
  shapeDims : List (Option Int)
deriving DecidableEq

/-- An initializer tensor proto: `data_type` is the dtype enum, `dims`
the integer dims, `float_data` the stored payload, kept as its opaque
rendered text since no claim inspects individual payload values. -/
structure Initializer where
  name : String
  data_type : Nat
  dims : List Int
  float_data : String
deriving DecidableEq

/-- A node proto. `attribute` keeps each attribute as its opaque rendered
text, since the code only tests emptiness and prints the repeated field
verbatim. -/
structure Node where
  name : String
  op_type : String
  input : List String
  output : List String
  «attribute» : List String
deriving DecidableEq

/-- The graph proto fields read by `inspect.py`. `sparse_initializer` and
`quantization_annotation` elements are never inspected (only counted),
so they are modelled as unit elements. -/
structure Graph where
  name : String
  node : List Node
  input : List ValueInfo
  output : List ValueInfo
  value_info : List ValueInfo
  initializer : List Initializer
  sparse_initializer : List Unit
  quantization_annotation : List Unit
deriving DecidableEq

/-- The model proto fields read by `print_meta`. `opset_import` is kept
as its opaque rendered text. -/
structure Model where
  ir_version : Int
  opset_import : String
  producer_name : String
  producer_version : String
  domain : String
  doc_string : String
  metadata_props : List (String × String)
  graph : Graph
deriving DecidableEq

/-- The parsed command-line flags of the `inspect` subcommand
(`store_true` flags are booleans, the two lists default to empty). -/
structure Args where
  meta : Bool
  node : Bool
  tensor : Bool
  indices : List Int
  names : List String
  detail : Bool
deriving DecidableEq

/-- Modelled from the spec: the shared dtype-name mapping of
`onnxcli.common.dtype` (file not under `src/`); the spec fixes only that
it is a function of the enumerated element type, so the enum tag is
rendered directly. -/
def dtype (t : Nat) : String := toString t

/-- Modelled from the spec: the shared shape renderer of
`onnxcli.common.shape` (file not under `src/`): each dimension is shown
as its integer value or a placeholder token for symbolic/unknown
dimensions, joined in declared order. -/
def shape (dims : List (Option Int)) : String :=
  String.intercalate "," (dims.map (fun d => match d with
    | some n => toString n
    | none => "?"))

/-- The 80-dash separator line printed by the headers. -/
def dashLine : String := String.mk (List.replicate 80 '-')

/-- Python list subscript `l[i]`: a nonnegative in-range index, or a
negative index counted from the end; anything else raises `IndexError`. -/
def pyGet {α : Type} (l : List α) (i : Int) : Except PyError α :=
  let j : Int := if i < 0 then i + l.length else i
  if j < 0 then Except.error (PyError.indexError "list index out of range")
  else match l.get? j.toNat with
    | some x => Except.ok x
    | none => Except.error (PyError.indexError "list index out of range")

/-- `print_value_info` in `print_tensor`: one line per ValueInfo. -/
def print_value_info (t : ValueInfo) : String :=
  "  ValueInfo \"" ++ t.name ++ "\":" ++ " type " ++ dtype t.elemType ++ ","
    ++ " shape " ++ shape t.shapeDims ++ ","

/-- `print_initializer` in `print_tensor`: a line for the tensor and,
in detail mode, a second line with its float data. -/
def print_initializer (t : Initializer) (detail : Bool) : List String :=
  let txt := "  Initializer \"" ++ t.name ++ "\":" ++ " type " ++ dtype t.data_type ++ ","
    ++ " shape " ++ toString t.dims ++ ","
  if detail then [txt, "    float data: " ++ t.float_data] else [txt]

/-- `print_node` in `print_nodes`: a line for the node and, in detail
mode when the node has attributes, a second line listing them. -/
def print_node (n : Node) (detail : Bool) : List String :=
  let txt := "  Node \"" ++ n.name ++ "\":" ++ " type \"" ++ n.op_type ++ "\","
    ++ " inputs \"" ++ toString n.input ++ "\"," ++ " outputs \"" ++ toString n.output ++ "\""
  if detail && n.«attribute».length > 0 then [txt, "    attributes: " ++ toString n.«attribute»]
  else [txt]

/-- One guarded probe of a ValueInfo collection in the index branch of
`print_tensor`: `if idx < len(l): print_value_info(l[idx])`, returning
the printed lines and whether the guard fired (`printed_any`). -/
def probeValueInfos (l : List ValueInfo) (idx : Int) : Except PyError (List String × Bool) :=
  if idx < (l.length : Int) then
    Except.map (fun t => ([print_value_info t], true)) (pyGet l idx)
  else Except.ok ([], false)

/-- The guarded probe of the initializer collection in the index branch
of `print_tensor`. -/
def probeInitializers (l : List Initializer) (idx : Int) (detail : Bool) :
    Except PyError (List String × Bool) :=
  if idx < (l.length : Int) then
    Except.map (fun t => (print_initializer t detail, true)) (pyGet l idx)
  else Except.ok ([], false)

/-- The body of the index loop in `print_tensor`: probe value-infos,
initializers, inputs and outputs in that order, and raise `ValueError`
when no guard fired. The braces of the unformatted Python message stay
literal because the source omits the `.format` call. -/
def tensorAtIndex (g : Graph) (idx : Int) (detail : Bool) : Except PyError (List String) :=
  Except.bind (probeValueInfos g.value_info idx) (fun r1 =>
  Except.bind (probeInitializers g.initializer idx detail) (fun r2 =>
  Except.bind (probeValueInfos g.input idx) (fun r3 =>
  Except.bind (probeValueInfos g.output idx) (fun r4 =>
  if r1.2 || r2.2 || r3.2 || r4.2 then Except.ok (r1.1 ++ r2.1 ++ r3.1 ++ r4.1)
  else Except.error
    (PyError.valueError "indices \x7b\x7d out of range, check the total size of tensors")))))

/-- The index branch of `print_tensor`: run `tensorAtIndex` over the
requested indices, concatenating output and propagating the first error. -/
def tensorIndicesRun (g : Graph) (indices : List Int) (detail : Bool) :
    Except PyError (List String) :=
  match indices with
  | [] => Except.ok []
  | idx :: rest =>
    Except.bind (tensorAtIndex g idx detail) (fun o =>
    Except.bind (tensorIndicesRun g rest detail) (fun os => Except.ok (o ++ os)))

/-- The body of the name loop in `print_tensor`: four find-first scans
(`for ... if i.name == name: ...; break`), one per collection, in the
order value-infos, initializers, inputs, outputs. Returns the printed
lines and whether any collection matched. -/
def tensorsForName (g : Graph) (name : String) (detail : Bool) : List String × Bool :=
  let a := match g.value_info.find? (fun i => i.name == name) with
    | some i => ([print_value_info i], true)
    | none => ([], false)
  let b := match g.initializer.find? (fun i => i.name == name) with
    | some i => (print_initializer i detail, true)
    | none => ([], false)
  let c := match g.input.find? (fun i => i.name == name) with
    | some i => ([print_value_info i], true)
    | none => ([], false)
  let d := match g.output.find? (fun i => i.name == name) with
    | some i => ([print_value_info i], true)
    | none => ([], false)
  (a.1 ++ b.1 ++ c.1 ++ d.1, a.2 || b.2 || c.2 || d.2)

/-- The name branch of `print_tensor`: `printed_any` is initialised once
before the loop over all names, and the `raise` after the loop reuses
the loop variable, i.e. the last requested name. The branch is only
entered with a nonempty name list. -/
def tensorNamesRun (g : Graph) (names : List String) (detail : Bool) :
    Except PyError (List String) :=
  let results := names.map (fun n => tensorsForName g n detail)
  let printed_any := results.any Prod.snd
  if printed_any then Except.ok (results.map Prod.fst).flatten
  else match names.getLast? with
    | some name => Except.error (PyError.valueError ("No tensor found with name " ++ name))
    | none => Except.ok []

/-- `print_tensor(g, indices, names, detail)`: header, then the index
branch, the name branch, or the print-all branch (all value-infos then
all initializers, the latter always non-detailed). -/
def print_tensor (g : Graph) (indices : List Int) (names : List String) (detail : Bool) :
    Except PyError (List String) :=
  if indices.length > 0 then
    Except.map (fun out => ["Tensor information:", dashLine] ++ out)
      (tensorIndicesRun g indices detail)
  else if names.length > 0 then
    Except.map (fun out => ["Tensor information:", dashLine] ++ out)
      (tensorNamesRun g names detail)
  else
    Except.ok (["Tensor information:", dashLine] ++ g.value_info.map print_value_info
      ++ (g.initializer.map (fun t => print_initializer t false)).flatten)

/-- The body of the index loop in `print_nodes`: a single flat bound
check against the node collection, whose `ValueError` message does embed
the index and the collection size via `.format`. -/
def nodeAtIndex (g : Graph) (idx : Int) (detail : Bool) : Except PyError (List String) :=
  if idx ≥ (g.node.length : Int) then
    Except.error (PyError.valueError
      ("indices " ++ toString idx ++ " out of range, node in total " ++ toString g.node.length))
  else Except.map (fun n => print_node n detail) (pyGet g.node idx)

/-- The index branch of `print_nodes`. -/
def nodeIndicesRun (g : Graph) (indices : List Int) (detail : Bool) :
    Except PyError (List String) :=
  match indices with
  | [] => Except.ok []
  | idx :: rest =>
    Except.bind (nodeAtIndex g idx detail) (fun o =>
    Except.bind (nodeIndicesRun g rest detail) (fun os => Except.ok (o ++ os)))

/-- The body of the name loop in `print_nodes`: a find-first scan of the
node collection. -/
def nodesForName (g : Graph) (name : String) (detail : Bool) : List String × Bool :=
  match g.node.find? (fun n => n.name == name) with
  | some n => (print_node n detail, true)
  | none => ([], false)

/-- The name branch of `print_nodes`: `found_any` accumulates across all
names and the `raise` after the loop reuses the loop variable (the last
requested name). The branch is only entered with a nonempty name list. -/
def nodeNamesRun (g : Graph) (names : List String) (detail : Bool) :
    Except PyError (List String) :=
  let results := names.map (fun n => nodesForName g n detail)
  let found_any := results.any Prod.snd
  if found_any then Except.ok (results.map Prod.fst).flatten
  else match names.getLast? with
    | some name => Except.error (PyError.valueError ("No node found with name " ++ name))
    | none => Except.ok []

/-- The `is-sorted-before` relation used to model
`collections.Counter.most_common`: entry `a` may precede entry `b` when
its count is at least `b`'s. -/
def countGE (a b : String × Nat) : Prop := b.2 ≤ a.2

instance : DecidableRel countGE := fun a b => inferInstanceAs (Decidable (b.2 ≤ a.2))

instance : IsTotal (String × Nat) countGE := ⟨fun a b => Nat.le_total b.2 a.2⟩

instance : IsTrans (String × Nat) countGE := ⟨fun _ _ _ h1 h2 => le_trans h2 h1⟩

/-- One step of `collections.Counter(list)`: increment the count of an
existing key or append a fresh key with count 1, preserving dict
insertion order (first-encounter order of keys). -/
def tallyAdd : List (String × Nat) → String → List (String × Nat)
  | [], s => [(s, 1)]
  | (k, c) :: rest, s => if k = s then (k, c + 1) :: rest else (k, c) :: tallyAdd rest s

/-- `collections.Counter(l)` as an association list in first-encounter
key order. -/
def tally (l : List String) : List (String × Nat) := l.foldl tallyAdd []

/-- `Counter.most_common()`: a stable sort of the counter entries by
descending count (Python's `sorted(..., reverse=True)` is stable, so
ties keep insertion order). -/
def most_common (t : List (String × Nat)) : List (String × Nat) :=
  t.insertionSort countGE

/-- The histogram computed at the top of the print-all branch of
`print_nodes`. -/
def nodeHistogram (g : Graph) : List (String × Nat) :=
  most_common (tally (g.node.map Node.op_type))

/-- One histogram line of `print_nodes`. -/
def histLine (p : String × Nat) : String :=
  "  Node type \"" ++ p.1 ++ "\" has: " ++ toString p.2

/-- `print_nodes(g, indices, names, detail)`: header, then the index
branch, the name branch, or the print-all branch (histogram, separator,
then every node in non-detailed form). -/
def print_nodes (g : Graph) (indices : List Int) (names : List String) (detail : Bool) :
    Except PyError (List String) :=
  if indices.length > 0 then
    Except.map (fun out => ["Node information:", dashLine] ++ out) (nodeIndicesRun g indices detail)
  else if names.length > 0 then
    Except.map (fun out => ["Node information:", dashLine] ++ out) (nodeNamesRun g names detail)
  else
    Except.ok (["Node information:", dashLine] ++ (nodeHistogram g).map histLine ++ [dashLine]
      ++ (g.node.map (fun n => print_node n false)).flatten)

/-- `print_meta(m)`: the fixed labelled lines, then one line per
metadata pair. The source calls `print` with the format string and the
two values as separate arguments (no `.format`), so Python prints the
three space-separated and the braces stay literal. -/
def metaPropLine (p : String × String) : String :=
  "  meta.\x7b\x7d = \x7b\x7d" ++ " " ++ p.1 ++ " " ++ p.2

/-- The meta block printed by `print_meta`. -/
def print_meta (m : Model) : List String :=
  ["Meta information:", dashLine,
   "  IR Version: " ++ toString m.ir_version,
   "  Opset Import: " ++ m.opset_import,
   "  Producer name: " ++ m.producer_name,
   "  Producer version: " ++ m.producer_version,
   "  Domain: " ++ m.domain,
   "  Doc string: " ++ m.doc_string]
  ++ m.metadata_props.map metaPropLine

/-- `print_basic(g)` as defined (one parameter): the eight labelled
summary lines, the first showing the length of the graph name. -/
def print_basic (g : Graph) : List String :=
  ["  Graph name: " ++ toString g.name.length,
   "  Graph inputs: " ++ toString g.input.length,
   "  Graph outputs: " ++ toString g.output.length,
   "  Nodes in total: " ++ toString g.node.length,
   "  ValueInfo in total: " ++ toString g.value_info.length,
   "  Initializers in total: " ++ toString g.initializer.length,
   "  Sparse Initializers in total: " ++ toString g.sparse_initializer.length,
   "  Quantization in total: " ++ toString g.quantization_annotation.length]

/-- The fallback call site `print_basic(args, g)` in `InspectCmd.run`:
it passes two arguments to the one-parameter `print_basic`, so Python
raises `TypeError` before any summary line is printed. -/
def print_basic_call (_ : Args) (_ : Graph) : Except PyError (List String) :=
  Except.error (PyError.typeError "print_basic() takes 1 positional argument but 2 were given")

/-- Models the Python expression `x is None` applied to a value that is
statically a `bool` (the `store_true` flags are `False`/`True`, never
`None`), which is therefore always false. -/
def pyIsNoneBool (_ : Bool) : Bool := false

/-- `InspectCmd.run(args)` after model loading: the three validation
checks exactly as written (including the duplicated `has_indices` test
and the `is None` comparisons on booleans), then the meta, node and
tensor blocks in that order, and the two-argument `print_basic` fallback
when nothing was printed. -/
def run (m : Model) (a : Args) : Except PyError (List String) :=
  let has_indices : Bool := a.indices.length != 0
  let has_names : Bool := a.names.length != 0
  let no_tensor_or_node : Bool := pyIsNoneBool a.node && pyIsNoneBool a.tensor
  if has_indices && has_names then
    Except.error (PyError.valueError "Can NOT set both \x2d\x2dindices and \x2d\x2dnames")
  else if (has_indices || has_indices) && no_tensor_or_node then
    Except.error (PyError.valueError
      "Can NOT set \x2d\x2dindices or \x2d\x2dnames without \x2d\x2dnode or \x2d\x2dtensor")
  else if (!has_indices && !has_names) && a.detail then
    Except.error (PyError.valueError
      "Can NOT set \x2d\x2ddetail without \x2d\x2dindices or \x2d\x2dnames")
  else
    let metaOut : List String := if a.meta then print_meta m else []
    Except.bind (if a.node then print_nodes m.graph a.indices a.names a.detail else Except.ok [])
      (fun nodeOut =>
    Except.bind (if a.tensor then print_tensor m.graph a.indices a.names a.detail else Except.ok [])
      (fun tensorOut =>
    if a.meta || a.node || a.tensor then Except.ok (metaOut ++ nodeOut ++ tensorOut)
    else Except.bind (print_basic_call a m.graph) (fun basicOut => Except.ok basicOut)))

/-- A graph with all collections empty. -/
def emptyGraph : Graph := ⟨"", [], [], [], [], [], [], []⟩

/-- A sample ValueInfo named `x`. -/
def vix : ValueInfo := ⟨"x", 1, [some 1]⟩

/-- A sample initializer named `w`. -/
def iniw : Initializer := ⟨"w", 1, [1], "[0.5]"⟩

/-- A sample initializer that shares the name `x` with `vix`. -/
def inix : Initializer := ⟨"x", 1, [1], "[0.25]"⟩

/-- A sample node named `a`. -/
def nodeA : Node := ⟨"a", "Conv", ["x"], ["y"], []⟩

/-- A sample graph in which every collection has exactly one element. -/
def g1 : Graph := ⟨"g1", [nodeA], [vix], [vix], [vix], [iniw], [], []⟩

/-- A graph with a single node named `a` and no tensors. -/
def gC4 : Graph := ⟨"gc4", [nodeA], [], [], [], [], [], []⟩

/-- A graph in which the name `x` occurs both as a value-info and as an
initializer. -/
def gC5 : Graph := ⟨"gc5", [], [], [], [vix], [inix], [], []⟩

/-- A sample model with one metadata pair. -/
def mC7 : Model := ⟨7, "ai.onnx v13", "prod", "1.0", "", "", [("author", "me")], emptyGraph⟩

/-- Taking one element of a suffix extracts exactly the element at that
position when it is in range. -/
theorem drop_take_one {α : Type} (l : List α) (n : Nat) (h : n < l.length) :
    (l.drop n).take 1 = [l.get ⟨n, h⟩] := by
  induction l generalizing n with
  | nil => simp at h
  | cons a t ih =>
    cases n with
    | zero => simp
    | succ n => simpa using ih n (by simpa using h)

/-- Taking one element of a suffix yields nothing when the position is
out of range. -/
theorem drop_take_one_out {α : Type} (l : List α) (n : Nat) (h : l.length ≤ n) :
    (l.drop n).take 1 = [] := by
  rw [List.drop_eq_nil_of_le h, List.take_nil]

/-- Python subscript with a nonnegative in-range index returns the
element at that index. -/
theorem pyGet_nonneg {α : Type} (l : List α) (i : Int) (h0 : 0 ≤ i)
    (h : i < (l.length : Int)) :
    pyGet l i = Except.ok (l.get ⟨i.toNat, by omega⟩) := by
  have hneg : ¬ i < 0 := by omega
  have hnn : i.toNat < l.length := by omega
  simp [pyGet, hneg, List.getElem?_eq_getElem hnn]

/-- Python subscript with a negative index that stays in range returns
the element counted from the end. -/
theorem pyGet_neg_ok {α : Type} (l : List α) (i : Int) (hn : i < 0)
    (h : 0 ≤ i + (l.length : Int)) :
    pyGet l i = Except.ok (l.get ⟨(i + (l.length : Int)).toNat, by omega⟩) := by
  have hb : (i + (l.length : Int)).toNat < l.length := by omega
  have hj : ¬ i + (l.length : Int) < 0 := by omega
  simp [pyGet, hn, hj, List.getElem?_eq_getElem hb]

/-- Python subscript with a negative index below the lower bound raises
`IndexError`. -/
theorem pyGet_neg_err {α : Type} (l : List α) (i : Int) (hn : i < 0)
    (h : i + (l.length : Int) < 0) :
    pyGet l i = Except.error (PyError.indexError "list index out of range") := by
  simp [pyGet, hn, h]

/-- For a nonnegative index, a ValueInfo probe prints the element exactly
when the index is in range for that collection, and the flag records
whether the guard fired. -/
theorem probeValueInfos_nonneg (l : List ValueInfo) (idx : Int) (h : 0 ≤ idx) :
    probeValueInfos l idx
      = Except.ok (((l.drop idx.toNat).take 1).map print_value_info,
          decide (idx < (l.length : Int))) := by
  by_cases hlt : idx < (l.length : Int)
  · have hn : idx.toNat < l.length := by omega
    rw [probeValueInfos, if_pos hlt, pyGet_nonneg l idx h hlt]
    simp [Except.map, drop_take_one l idx.toNat hn, hlt]
  · have hn : l.length ≤ idx.toNat := by omega
    rw [probeValueInfos, if_neg hlt]
    simp [drop_take_one_out l idx.toNat hn, hlt]

/-- For a nonnegative index, the initializer probe prints the element
exactly when the index is in range for that collection. -/
theorem probeInitializers_nonneg (l : List Initializer) (idx : Int) (detail : Bool)
    (h : 0 ≤ idx) :
    probeInitializers l idx detail
      = Except.ok ((((l.drop idx.toNat).take 1).map (fun t => print_initializer t detail)).flatten,
          decide (idx < (l.length : Int))) := by
  by_cases hlt : idx < (l.length : Int)
  · have hn : idx.toNat < l.length := by omega
    rw [probeInitializers, if_pos hlt, pyGet_nonneg l idx h hlt]
    simp [Except.map, drop_take_one l idx.toNat hn, hlt]
  · have hn : l.length ≤ idx.toNat := by omega
    rw [probeInitializers, if_neg hlt]
    simp [drop_take_one_out l idx.toNat hn, hlt]

/-- For a negative index, the guard of a ValueInfo probe always fires and
the subscript either returns the element counted from the end or raises
`IndexError`. -/
theorem probeValueInfos_neg (l : List ValueInfo) (idx : Int) (hn : idx < 0) :
    probeValueInfos l idx
      = if 0 ≤ idx + (l.length : Int) then
          Except.ok ((((l.drop (idx + (l.length : Int)).toNat).take 1).map print_value_info), true)
        else Except.error (PyError.indexError "list index out of range") := by
  have hlt : idx < (l.length : Int) := by omega
  rw [probeValueInfos, if_pos hlt]
  by_cases h : 0 ≤ idx + (l.length : Int)
  · have hb : (idx + (l.length : Int)).toNat < l.length := by omega
    rw [pyGet_neg_ok l idx hn h, if_pos h]
    simp [Except.map, drop_take_one l _ hb]
  · rw [pyGet_neg_err l idx hn (by omega), if_neg h]
    simp [Except.map]

/-- For a negative index, the guard of the initializer probe always fires
and the subscript either returns the element counted from the end or
raises `IndexError`. -/
theorem probeInitializers_neg (l : List Initializer) (idx : Int) (detail : Bool)
    (hn : idx < 0) :
    probeInitializers l idx detail
      = if 0 ≤ idx + (l.length : Int) then
          Except.ok ((((l.drop (idx + (l.length : Int)).toNat).take 1).map
            (fun t => print_initializer t detail)).flatten, true)
        else Except.error (PyError.indexError "list index out of range") := by
  have hlt : idx < (l.length : Int) := by omega
  rw [probeInitializers, if_pos hlt]
  by_cases h : 0 ≤ idx + (l.length : Int)
  · have hb : (idx + (l.length : Int)).toNat < l.length := by omega
    rw [pyGet_neg_ok l idx hn h, if_pos h]
    simp [Except.map, drop_take_one l _ hb]
  · rw [pyGet_neg_err l idx hn (by omega), if_neg h]
    simp [Except.map]

/-- Claim C1: with none of the meta/node/tensor flags set, the claim says the
command runs the aggregate summary and prints exactly 8 labelled lines; in the
code the fallback site calls the one-parameter `print_basic` with two
arguments, so the invocation raises `TypeError` instead, even though the
`print_basic` body itself consists of exactly 8 labelled lines. -/
theorem C1_fallback_arity_bug : ∀ m : Model,
    run m ⟨false, false, false, [], [], false⟩
      = Except.error (PyError.typeError "print_basic() takes 1 positional argument but 2 were given")
    ∧ (print_basic m.graph).length = 8 :=
  fun _ => ⟨rfl, rfl⟩

/-- Claim C2: the claim says a non-empty index or name list without the node
or tensor flag fails with `SelectorWithoutTarget`; in the code the guard
compares the boolean flags against `None` (always false) and tests
`has_indices` twice, so validation passes: with `--meta --indices 0` the run
succeeds and prints the meta block. -/
theorem C2_selector_guard_dead : ∀ m : Model,
    run m ⟨true, false, false, [0], [], false⟩ = Except.ok (print_meta m) := by
  intro m
  simp [run, pyIsNoneBool, Except.bind]

/-- Claim C9: tensor-target resolution with no selector returns all
value-infos then all initializers, in collection order, with every
initializer rendered in non-detailed form regardless of the detail flag. -/
theorem C9_all_mode : ∀ (g : Graph) (detail : Bool),
    print_tensor g [] [] detail
      = Except.ok (["Tensor information:", dashLine] ++ g.value_info.map print_value_info
        ++ (g.initializer.map (fun t => print_initializer t false)).flatten) :=
  fun _ _ => rfl

/-- Claim C7: the claim says each metadata pair prints as
`meta.<key> = <value>`; the code passes the format string and the two values
as separate arguments to `print` without calling `.format`, so the braces
stay literal and the key and value are appended space-separated. -/
theorem C7_meta_format_bug :
    print_meta mC7
      = ["Meta information:", dashLine,
         "  IR Version: 7",
         "  Opset Import: ai.onnx v13",
         "  Producer name: prod",
         "  Producer version: 1.0",
         "  Domain: ",
         "  Doc string: ",
         "  meta.\x7b\x7d = \x7b\x7d author me"]
    ∧ "  meta.\x7b\x7d = \x7b\x7d author me" ≠ "  meta.author = me" :=
  ⟨rfl, by decide⟩

/-- Claim C4 counterexample: the name list `["a", "zzz"]` contains the name
`zzz` that matches no node of `gC4`, yet because the name `a` matched,
resolution succeeds instead of failing with `NameNotFound`. -/
theorem C4_counterexample :
    nodeNamesRun gC4 ["a", "zzz"] false = Except.ok (print_node nodeA false) := rfl

/-- Claim C5 counterexample: the name `x` is present both as a value-info and
as an initializer of `gC5`, and the locator reports a match from both
collections (two matches), not only from the highest-priority one. -/
theorem C5_counterexample :
    (tensorsForName gC5 "x" false).1.length = 2
    ∧ tensorsForName gC5 "x" false
        = ([print_value_info vix] ++ print_initializer inix false, true) :=
  ⟨rfl, rfl⟩

/-- Claim C3: for a (zero-based, hence nonnegative) index under the tensor
target, the locator reports a match from each of value-infos, initializers,
inputs and outputs — in that order — in which the index is in range, silently
skips the out-of-range collections, and fails with the out-of-range
`ValueError` exactly when the index is out of range for all four; for the
node target the lookup is a single flat bound on the node collection. -/
theorem C3_index_lookup (g : Graph) (idx : Int) (detail : Bool) (h : 0 ≤ idx) :
    (tensorAtIndex g idx detail
      = if idx < (g.value_info.length : Int) ∨ idx < (g.initializer.length : Int)
            ∨ idx < (g.input.length : Int) ∨ idx < (g.output.length : Int) then
          Except.ok (((g.value_info.drop idx.toNat).take 1).map print_value_info
            ++ (((g.initializer.drop idx.toNat).take 1).map
                  (fun t => print_initializer t detail)).flatten
            ++ ((g.input.drop idx.toNat).take 1).map print_value_info
            ++ ((g.output.drop idx.toNat).take 1).map print_value_info)
        else Except.error
          (PyError.valueError "indices \x7b\x7d out of range, check the total size of tensors"))
    ∧ (nodeAtIndex g idx detail
      = if idx < (g.node.length : Int) then
          Except.ok ((((g.node.drop idx.toNat).take 1).map (fun n => print_node n detail)).flatten)
        else Except.error (PyError.valueError
          ("indices " ++ toString idx ++ " out of range, node in total "
            ++ toString g.node.length))) := by
  constructor
  · rw [tensorAtIndex, probeValueInfos_nonneg _ _ h, probeInitializers_nonneg _ _ _ h,
      probeValueInfos_nonneg _ _ h, probeValueInfos_nonneg _ _ h]
    by_cases h1 : idx < (g.value_info.length : Int) <;>
    by_cases h2 : idx < (g.initializer.length : Int) <;>
    by_cases h3 : idx < (g.input.length : Int) <;>
    by_cases h4 : idx < (g.output.length : Int) <;>
    simp [Except.bind, h1, h2, h3, h4]
  · by_cases hlt : idx < (g.node.length : Int)
    · have hge : ¬ idx ≥ (g.node.length : Int) := by omega
      have hn : idx.toNat < g.node.length := by omega
      rw [nodeAtIndex, if_neg hge, pyGet_nonneg _ _ h hlt, if_pos hlt]
      simp [Except.map, drop_take_one g.node idx.toNat hn]
    · have hge : idx ≥ (g.node.length : Int) := by omega
      rw [nodeAtIndex, if_pos hge, if_neg hlt]

/-- Claim C3 witness: in `g1` every collection has one element, so index 0 is
in range everywhere and every collection reports its element. -/
theorem C3_index_lookup_witness :
    tensorAtIndex g1 0 false
      = Except.ok ([print_value_info vix] ++ print_initializer iniw false
          ++ [print_value_info vix] ++ [print_value_info vix])
    ∧ nodeAtIndex g1 0 false = Except.ok (print_node nodeA false) := by
  have h := C3_index_lookup g1 0 false (by decide)
  refine ⟨?_, ?_⟩
  · rw [h.1]; rfl
  · rw [h.2]; rfl

/-- Claim C6: when an index-mode lookup fails, the claim says the error
message contains the offending index for both targets; the node-target
message does embed the index via `.format`, but the tensor-target message is
raised without the `.format` call, so it is the same constant string — with
literal braces and no index — for every failing index. -/
theorem C6_index_message : ∀ i : Int, 0 ≤ i →
    tensorAtIndex emptyGraph i false
      = Except.error
          (PyError.valueError "indices \x7b\x7d out of range, check the total size of tensors")
    ∧ nodeAtIndex emptyGraph i false
      = Except.error (PyError.valueError
          ("indices " ++ toString i ++ " out of range, node in total "
            ++ toString emptyGraph.node.length)) := by
  intro i h
  have h0 : ¬ i < ((0 : Nat) : Int) := by omega
  have h0' : ¬ i < (0 : Int) := by omega
  have hge : i ≥ ((0 : Nat) : Int) := by omega
  constructor
  · rw [tensorAtIndex, probeValueInfos_nonneg _ _ h, probeInitializers_nonneg _ _ _ h,
      probeValueInfos_nonneg _ _ h, probeValueInfos_nonneg _ _ h]
    simp [emptyGraph, Except.bind, h0, h0']
  · rw [nodeAtIndex]
    simp only [emptyGraph, List.length_nil]
    rw [if_pos hge]

/-- Claim C6 witness: at index 5 against the empty graph, the tensor message
is the constant unformatted string while the node message names 5. -/
theorem C6_index_message_witness :
    (0 : Int) ≤ 5
    ∧ (tensorAtIndex emptyGraph 5 false
        = Except.error
            (PyError.valueError "indices \x7b\x7d out of range, check the total size of tensors")
      ∧ nodeAtIndex emptyGraph 5 false
        = Except.error (PyError.valueError
            ("indices " ++ toString (5 : Int) ++ " out of range, node in total "
              ++ toString emptyGraph.node.length))) :=
  ⟨by decide, C6_index_message 5 (by decide)⟩

/-- Claim C10: for a negative index under the tensor target, the `idx < len`
guard accepts the index for every collection; when every collection satisfies
`0 ≤ idx + len` the lookup succeeds and returns the element counted from the
end of each collection, and otherwise the subscript itself raises an
`IndexError`, a different exception from the documented out-of-range
`ValueError`. -/
theorem C10_negative_index (g : Graph) (idx : Int) (detail : Bool) (h : idx < 0) :
    (idx < (g.value_info.length : Int) ∧ idx < (g.initializer.length : Int)
      ∧ idx < (g.input.length : Int) ∧ idx < (g.output.length : Int))
    ∧ (tensorAtIndex g idx detail
      = if 0 ≤ idx + (g.value_info.length : Int) ∧ 0 ≤ idx + (g.initializer.length : Int)
            ∧ 0 ≤ idx + (g.input.length : Int) ∧ 0 ≤ idx + (g.output.length : Int) then
          Except.ok
            (((g.value_info.drop (idx + (g.value_info.length : Int)).toNat).take 1).map
                print_value_info
              ++ (((g.initializer.drop (idx + (g.initializer.length : Int)).toNat).take 1).map
                    (fun t => print_initializer t detail)).flatten
              ++ ((g.input.drop (idx + (g.input.length : Int)).toNat).take 1).map
                    print_value_info
              ++ ((g.output.drop (idx + (g.output.length : Int)).toNat).take 1).map
                    print_value_info)
        else Except.error (PyError.indexError "list index out of range"))
    ∧ PyError.indexError "list index out of range"
        ≠ PyError.valueError "indices \x7b\x7d out of range, check the total size of tensors" := by
  refine ⟨⟨by omega, by omega, by omega, by omega⟩, ?_, by simp⟩
  rw [tensorAtIndex, probeValueInfos_neg _ _ h, probeInitializers_neg _ _ _ h,
    probeValueInfos_neg _ _ h, probeValueInfos_neg _ _ h]
  by_cases h1 : 0 ≤ idx + (g.value_info.length : Int) <;>
  by_cases h2 : 0 ≤ idx + (g.initializer.length : Int) <;>
  by_cases h3 : 0 ≤ idx + (g.input.length : Int) <;>
  by_cases h4 : 0 ≤ idx + (g.output.length : Int) <;>
  simp [Except.bind, h1, h2, h3, h4]

/-- Claim C10 witness: index -1 against `g1` (all collections of length 1)
returns the last element of every collection; against the empty graph the
subscript raises `IndexError`. -/
theorem C10_negative_index_witness :
    tensorAtIndex g1 (-1) false
      = Except.ok ([print_value_info vix] ++ print_initializer iniw false
          ++ [print_value_info vix] ++ [print_value_info vix])
    ∧ tensorAtIndex emptyGraph (-1) false
      = Except.error (PyError.indexError "list index out of range") := by
  have h1 := C10_negative_index g1 (-1) false (by decide)
  have h2 := C10_negative_index emptyGraph (-1) false (by decide)
  refine ⟨?_, ?_⟩
  · rw [h1.2.1]; rfl
  · rw [h2.2.1]; rfl

/-- The match flag of a node name scan is exactly whether the find-first
scan of the node collection succeeds. -/
theorem nodesForName_snd (g : Graph) (n : String) (detail : Bool) :
    (nodesForName g n detail).2 = (g.node.find? (fun nd => nd.name == n)).isSome := by
  unfold nodesForName
  cases g.node.find? (fun nd => nd.name == n) <;> rfl

/-- Scanning a mapped list is scanning the original list through the map. -/
theorem any_map_comp {α β : Type} (l : List α) (f : α → β) (p : β → Bool) :
    (l.map f).any p = l.any (fun x => p (f x)) := by
  induction l with
  | nil => rfl
  | cons a t ih => simp [ih]

/-- Claim C4 amended: name resolution fails only when every requested name
matched nothing in any relevant collection; when it fails, the error names
the last requested name (itself absent); a name that matches nothing while
another name matches is silently skipped. -/
theorem C4_amended_last_name (g : Graph) (names : List String) (detail : Bool)
    (h : names ≠ []) :
    (nodeNamesRun g names detail
      = if names.any (fun n => (g.node.find? (fun nd => nd.name == n)).isSome) then
          Except.ok ((names.map (fun n => (nodesForName g n detail).1)).flatten)
        else Except.error (PyError.valueError ("No node found with name " ++ names.getLast h)))
    ∧ (tensorNamesRun g names detail
      = if names.any (fun n => (tensorsForName g n detail).2) then
          Except.ok ((names.map (fun n => (tensorsForName g n detail).1)).flatten)
        else Except.error
          (PyError.valueError ("No tensor found with name " ++ names.getLast h))) := by
  constructor
  · simp only [nodeNamesRun]
    rw [any_map_comp, List.map_map, List.getLast?_eq_getLast_of_ne_nil h]
    simp only [Function.comp_def, nodesForName_snd]
  · simp only [tensorNamesRun]
    rw [any_map_comp, List.map_map, List.getLast?_eq_getLast_of_ne_nil h]
    simp only [Function.comp_def]

/-- Claim C4 amended witness: with two absent names, resolution fails naming
the last one, for both targets. -/
theorem C4_amended_last_name_witness :
    nodeNamesRun gC4 ["zzz", "yyy"] false
      = Except.error (PyError.valueError "No node found with name yyy")
    ∧ tensorNamesRun gC4 ["zzz", "yyy"] false
      = Except.error (PyError.valueError "No tensor found with name yyy") := by
  have h := C4_amended_last_name gC4 ["zzz", "yyy"] false (by decide)
  refine ⟨?_, ?_⟩
  · rw [h.1]; rfl
  · rw [h.2]; rfl

/-- The first element of a filtered list is the first element satisfying the
predicate. -/
theorem filter_take_one_eq_find {α : Type} (l : List α) (p : α → Bool) :
    (l.filter p).take 1 = (match l.find? p with
      | some x => [x]
      | none => []) := by
  induction l with
  | nil => rfl
  | cons a t ih =>
    by_cases h : p a
    · simp [List.filter_cons, List.find?_cons, h]
    · simp [List.filter_cons, List.find?_cons, h, ih]

/-- Claim C5 amended: for each requested tensor name, each of the four
collections is probed in the order value-infos, initializers, inputs,
outputs, and within each collection only the first element with that name is
reported; every collection containing the name contributes one match, so a
name present in several collections is reported once per collection. -/
theorem C5_amended_per_collection (g : Graph) (name : String) (detail : Bool) :
    (tensorsForName g name detail).1
      = ((g.value_info.filter (fun i => i.name == name)).take 1).map print_value_info
        ++ (((g.initializer.filter (fun i => i.name == name)).take 1).map
              (fun t => print_initializer t detail)).flatten
        ++ ((g.input.filter (fun i => i.name == name)).take 1).map print_value_info
        ++ ((g.output.filter (fun i => i.name == name)).take 1).map print_value_info := by
  rw [filter_take_one_eq_find, filter_take_one_eq_find, filter_take_one_eq_find,
    filter_take_one_eq_find]
  unfold tensorsForName
  cases g.value_info.find? (fun i => i.name == name) <;>
  cases g.initializer.find? (fun i => i.name == name) <;>
  cases g.input.find? (fun i => i.name == name) <;>
  cases g.output.find? (fun i => i.name == name) <;>
  simp

/-- Incrementing a counter increases the total count by one. -/
theorem sum_tallyAdd (acc : List (String × Nat)) (s : String) :
    ((tallyAdd acc s).map Prod.snd).sum = ((acc.map Prod.snd).sum) + 1 := by
  induction acc with
  | nil => simp [tallyAdd]
  | cons p rest ih =>
    obtain ⟨k, c⟩ := p
    by_cases hk : k = s
    · simp [tallyAdd, hk]
      omega
    · simp [tallyAdd, hk, ih]
      omega

/-- Folding the counter over a list adds the list length to the total count. -/
theorem sum_foldl_tallyAdd (l : List String) : ∀ acc : List (String × Nat),
    ((l.foldl tallyAdd acc).map Prod.snd).sum = ((acc.map Prod.snd).sum) + l.length := by
  induction l with
  | nil => intro acc; simp
  | cons s t ih =>
    intro acc
    rw [List.foldl_cons, ih, sum_tallyAdd]
    simp
    omega

/-- The counts of the tally of a list sum to the list's length. -/
theorem sum_tally (l : List String) : ((tally l).map Prod.snd).sum = l.length := by
  simpa [tally] using sum_foldl_tallyAdd l []

/-- Sorting the counter entries preserves the total count. -/
theorem sum_most_common (t : List (String × Nat)) :
    ((most_common t).map Prod.snd).sum = (t.map Prod.snd).sum :=
  ((List.perm_insertionSort countGE t).map Prod.snd).sum_eq

/-- `most_common` sorts by descending count. -/
theorem pairwise_most_common (t : List (String × Nat)) :
    List.Pairwise countGE (most_common t) :=
  List.sorted_insertionSort countGE t

/-- Inserting an entry in descending-count order commutes with filtering by
an exact count: all entries it is inserted after have a strictly larger
count. -/
theorem filter_orderedInsert (a : String × Nat) (l : List (String × Nat)) (c : Nat) :
    (List.orderedInsert countGE a l).filter (fun q => q.2 == c)
      = ((a :: l).filter (fun q => q.2 == c)) := by
  induction l with
  | nil => rfl
  | cons b t ih =>
    by_cases hab : countGE a b
    · rw [List.orderedInsert, if_pos hab]
    · rw [List.orderedInsert, if_neg hab]
      have hlt : a.2 < b.2 := Nat.lt_of_not_le (fun hle => hab hle)
      by_cases hac : a.2 = c
      · have hbc : ¬ b.2 = c := by omega
        simp [List.filter_cons, hac, hbc, ih]
      · simp [List.filter_cons, hac, ih]

/-- Stability of `most_common`: entries with any given count keep their
relative (first-encounter) order from the tally. -/
theorem filter_insertionSort (t : List (String × Nat)) (c : Nat) :
    (List.insertionSort countGE t).filter (fun q => q.2 == c)
      = t.filter (fun q => q.2 == c) := by
  induction t with
  | nil => rfl
  | cons a t ih =>
    rw [List.insertionSort, filter_orderedInsert]
    simp [List.filter_cons, ih]

/-- Claim C8: in print-all-nodes mode the node-type histogram's counts sum to
the total node count, its entries are in descending count order, ties keep
the first-encountered order of the operation type (entries of equal count
appear exactly as in the first-encounter tally), and the histogram is
printed before the per-node listing. -/
theorem C8_histogram_props (g : Graph) :
    ((nodeHistogram g).map Prod.snd).sum = g.node.length
    ∧ List.Pairwise (fun a b : String × Nat => b.2 ≤ a.2) (nodeHistogram g)
    ∧ (∀ c : Nat, (nodeHistogram g).filter (fun q => q.2 == c)
        = (tally (g.node.map Node.op_type)).filter (fun q => q.2 == c))
    ∧ print_nodes g [] [] false
        = Except.ok (["Node information:", dashLine] ++ (nodeHistogram g).map histLine
          ++ [dashLine] ++ (g.node.map (fun n => print_node n false)).flatten) := by
  refine ⟨?_, ?_, ?_, rfl⟩
  · rw [nodeHistogram, sum_most_common, sum_tally, List.length_map]
  · exact pairwise_most_common (tally (g.node.map Node.op_type))
  · intro c
    rw [nodeHistogram, most_common, filter_insertionSort]

end Onnxcli
